import Mathlib

/-!
Shallow embedding of `src/convert.py` (njones61/my_pandoc): a thin
orchestration script that converts Word documents to LaTeX by invoking
pandoc as an external subprocess and packaging the results.

Modelling choices:
* filesystem paths are lists of components (absolute, from the root);
* the filesystem is a pair of lists: regular files and directories;
* the external tool (pandoc) is an oracle: a function from the command
  line and the current filesystem to an exit code, captured stderr,
  and a new filesystem;
* the `World` threads the filesystem, the trace of external invocations,
  and the stdout/stderr lines emitted;
* Python `pathlib` name operations (`stem`, `suffix`, glob matching of
  the literal pattern `*.docx`) are embedded on character lists exactly
  as `pathlib` computes them (last-dot splitting, the dot counting only
  when its index `i` satisfies `0 < i < len - 1`).
-/

/-- A filesystem path, as its list of components from the root. -/
abbrev FsPath := List String

/-- The filesystem: regular files and directories, each a list of paths. -/
structure FileSystem where
  files : List FsPath
  dirs : List FsPath
deriving Repr, DecidableEq

/-- Python `Path.exists()`: the path is a regular file or a directory. -/
def FileSystem.existsPath (fs : FileSystem) (p : FsPath) : Prop :=
  p ∈ fs.files ∨ p ∈ fs.dirs

instance (fs : FileSystem) (p : FsPath) : Decidable (fs.existsPath p) := by
  unfold FileSystem.existsPath; infer_instance

/-- Python `Path.is_dir()`. -/
def FileSystem.isDir (fs : FileSystem) (p : FsPath) : Prop :=
  p ∈ fs.dirs

instance (fs : FileSystem) (p : FsPath) : Decidable (fs.isDir p) := by
  unfold FileSystem.isDir; infer_instance

/-- All nonempty initial segments of a path (the path and its ancestors). -/
def initsOf (p : FsPath) : List FsPath :=
  (List.range p.length).map (fun i => p.take (i + 1))

/-- Python `Path.mkdir(parents=True, exist_ok=True)`: record the directory
and every ancestor as present. -/
def FileSystem.mkdirParents (fs : FileSystem) (p : FsPath) : FileSystem :=
  { fs with dirs := fs.dirs ++ initsOf p }

/-- The last component of a path (Python `Path.name`), `""` for the root. -/
def lastName (p : FsPath) : String :=
  p.getLastD ""

/-- Render a path the way Python `str(Path(...))` renders an absolute path. -/
def pathStr (p : FsPath) : String :=
  "/" ++ String.intercalate "/" p

/-- Index of the last `'.'` in a character list, if any. -/
def rfindDot : List Char → Option Nat
  | [] => none
  | c :: cs =>
    match rfindDot cs with
    | some j => some (j + 1)
    | none => if c = '.' then some 0 else none

/-- Python `Path.suffix` of a file name: the part from the last dot on,
provided that dot is neither the first nor the last character. -/
def pySuffix (name : String) : String :=
  let cs := name.data
  match rfindDot cs with
  | some i => if 0 < i ∧ i < cs.length - 1 then String.mk (cs.drop i) else ""
  | none => ""

/-- Python `Path.stem` of a file name: the name with `pySuffix` removed. -/
def pyStem (name : String) : String :=
  let cs := name.data
  match rfindDot cs with
  | some i => if 0 < i ∧ i < cs.length - 1 then String.mk (cs.take i) else name
  | none => name

/-- Python `str.lower()` on the ASCII-relevant characters compared here:
lowercase each character. -/
def pyLower (s : String) : String :=
  String.mk (s.data.map Char.toLower)

/-- fnmatch-style matching of the case-sensitive glob pattern `*.docx`:
the name ends with the five characters `.docx`. -/
def endsWithDocx (name : String) : Bool :=
  decide (5 ≤ name.data.length ∧
    name.data.drop (name.data.length - 5) = ['.', 'd', 'o', 'c', 'x'])

deriving instance DecidableEq for Except

/-- Result of running the external process: exit code and captured stderr. -/
structure RunResult where
  returncode : Int
  stderr : String
deriving Repr, DecidableEq

/-- The external conversion tool (pandoc), as an oracle from the command
line and the filesystem to a run result and the filesystem it leaves. -/
structure Pandoc where
  run : List String → FileSystem → RunResult × FileSystem

/-- The observable world threaded through the script: the filesystem, the
external invocations made, and the stdout/stderr lines printed. -/
structure World where
  fs : FileSystem
  calls : List (List String)
  stdoutLines : List String
  stderrLines : List String
deriving Repr, DecidableEq

/-- The Python exceptions the script can raise. -/
inductive PyError where
  | fileNotFoundError (msg : String)
  | valueError (msg : String)
  | notADirectoryError (msg : String)
  | runtimeError (msg : String)
deriving Repr, DecidableEq

/-- Python `str(e)` for the exceptions used here: the message. -/
def PyError.msg : PyError → String
  | .fileNotFoundError m => m
  | .valueError m => m
  | .notADirectoryError m => m
  | .runtimeError m => m

/-- The command line built by `convert_docx_to_latex` (src/convert.py
lines 48-56): `pandoc <input> [-s] [--extract-media <doc_dir>] -o <out>`. -/
def buildCmd (input_path doc_dir output_path : FsPath)
    (standalone extract_media : Bool) : List String :=
  ["pandoc", pathStr input_path]
    ++ (if standalone then ["-s"] else [])
    ++ (if extract_media then ["--extract-media", pathStr doc_dir] else [])
    ++ ["-o", pathStr output_path]

/-- Compression methods of Python `zipfile` used here. -/
inductive CompressionMethod where
  | stored
  | deflated
deriving Repr, DecidableEq

/-- An entry written into the zip archive: archive name, source path on
disk, and compression method. -/
structure ZipEntry where
  arcname : String
  source : FsPath
  method : CompressionMethod
deriving Repr, DecidableEq

/-- The path `f` lies strictly under directory `d`. -/
def underDir (d f : FsPath) : Prop :=
  f.take d.length = d ∧ d.length < f.length

instance (d f : FsPath) : Decidable (underDir d f) := by
  unfold underDir; infer_instance

/-- Archive name of a media file: `media/<path relative to media dir>`. -/
def mediaArcname (media_dir f : FsPath) : String :=
  "media/" ++ String.intercalate "/" (f.drop media_dir.length)

/-- `create_zip_archive` (src/convert.py lines 74-101): create
`<doc_dir>/<doc_name>.zip`, add the `.tex` file if it exists, then every
regular file found under `<doc_dir>/media`, all deflate-compressed.
Returns the archive path, the entries written, and the filesystem. -/
def create_zip_archive (doc_dir : FsPath) (doc_name : String)
    (fs : FileSystem) : FsPath × List ZipEntry × FileSystem :=
  let zip_path := doc_dir ++ [doc_name ++ ".zip"]
  let fs1 : FileSystem := { fs with files := fs.files ++ [zip_path] }
  let tex_file := doc_dir ++ [doc_name ++ ".tex"]
  let texEntries : List ZipEntry :=
    if fs1.existsPath tex_file then
      [⟨lastName tex_file, tex_file, .deflated⟩]
    else []
  let media_dir := doc_dir ++ ["media"]
  let mediaEntries : List ZipEntry :=
    if fs1.existsPath media_dir then
      (fs1.files.filter (fun f => decide (underDir media_dir f))).map
        (fun f => ⟨mediaArcname media_dir f, f, .deflated⟩)
    else []
  (zip_path, texEntries ++ mediaEntries, fs1)

/-- `convert_docx_to_latex` (src/convert.py lines 11-71): validate the
input path, create the bundle directory, invoke pandoc, create the zip
archive, and return the `.tex` path; errors become `Except.error`. -/
def convert_docx_to_latex (p : Pandoc) (input_file : FsPath)
    (output_dir : Option FsPath) (standalone extract_media : Bool)
    (w : World) : Except PyError FsPath × World :=
  let input_path := input_file
  if ¬ w.fs.existsPath input_path then
    (.error (.fileNotFoundError ("Input file not found: " ++ pathStr input_path)), w)
  else if ¬ (pyLower (pySuffix (lastName input_path)) = ".docx") then
    (.error (.valueError ("Input file must be .docx format: " ++ pathStr input_path)), w)
  else
    let doc_name := pyStem (lastName input_path)
    let parent_dir := output_dir.getD input_path.dropLast
    let doc_dir := parent_dir ++ [doc_name]
    let fs1 := w.fs.mkdirParents doc_dir
    let output_path := doc_dir ++ [doc_name ++ ".tex"]
    let cmd := buildCmd input_path doc_dir output_path standalone extract_media
    let line1 := "Converting: " ++ lastName input_path ++ " -> "
      ++ doc_name ++ "/" ++ lastName output_path
    let pr := p.run cmd fs1
    let w2 : World :=
      { fs := pr.2, calls := w.calls ++ [cmd],
        stdoutLines := w.stdoutLines ++ [line1], stderrLines := w.stderrLines }
    if pr.1.returncode ≠ 0 then
      (.error (.runtimeError ("Pandoc error: " ++ pr.1.stderr)), w2)
    else
      let za := create_zip_archive doc_dir doc_name w2.fs
      let w3 : World :=
        { w2 with
          fs := za.snd.snd
          stdoutLines := w2.stdoutLines
            ++ ["Successfully created: " ++ pathStr output_path,
                "Created archive: " ++ pathStr za.fst] }
      (.ok output_path, w3)

/-- `input_path.glob("*.docx")` (src/convert.py line 131): immediate
children of `d` whose name matches the case-sensitive pattern `*.docx`. -/
def globDocx (fs : FileSystem) (d : FsPath) : List FsPath :=
  (fs.files ++ fs.dirs).filter
    (fun e => decide (e ≠ [] ∧ e.dropLast = d ∧ endsWithDocx (lastName e) = true))

/-- The candidate set the batch driver iterates over: the glob runs after
the output parent directory has been created. -/
def batchCandidates (fs : FileSystem) (input_dir output_path : FsPath) : List FsPath :=
  globDocx (fs.mkdirParents output_path) input_dir

/-- The sequential per-file loop of `batch_convert` (src/convert.py lines
139-147): convert each file, collect successes, report failures to stderr
and continue. -/
def batchLoop (p : Pandoc) (files : List FsPath) (output_path : FsPath)
    (standalone extract_media : Bool) (w : World) : List FsPath × World :=
  match files with
  | [] => ([], w)
  | f :: rest =>
    match convert_docx_to_latex p f (some output_path) standalone extract_media w with
    | (.ok r, w1) =>
      let t := batchLoop p rest output_path standalone extract_media w1
      (r :: t.1, t.2)
    | (.error e, w1) =>
      let w2 : World := { w1 with stderrLines := w1.stderrLines
        ++ ["Error converting " ++ lastName f ++ ": " ++ e.msg] }
      batchLoop p rest output_path standalone extract_media w2

/-- `batch_convert` (src/convert.py lines 104-147): check the input is a
directory, create the output parent, glob `*.docx`, and run the loop. -/
def batch_convert (p : Pandoc) (input_dir : FsPath) (output_dir : Option FsPath)
    (standalone extract_media : Bool) (w : World) :
    Except PyError (List FsPath) × World :=
  let input_path := input_dir
  let output_path := output_dir.getD input_path
  if ¬ w.fs.isDir input_path then
    (.error (.notADirectoryError ("Not a directory: " ++ pathStr input_path)), w)
  else
    let w1 : World := { w with fs := w.fs.mkdirParents output_path }
    let docx_files := globDocx w1.fs input_path
    if docx_files.isEmpty then
      (.ok [], { w1 with stdoutLines := w1.stdoutLines
        ++ ["No .docx files found in " ++ pathStr input_path] })
    else
      let w2 : World := { w1 with stdoutLines := w1.stdoutLines
        ++ ["Found " ++ toString docx_files.length ++ " Word document(s)"] }
      let t := batchLoop p docx_files output_path standalone extract_media w2
      (.ok t.1, t.2)

/-- The parsed command-line arguments of `main` (src/convert.py 150-181). -/
structure Args where
  input : FsPath
  output : Option FsPath
  no_standalone : Bool
  no_media : Bool

namespace convert

/-- `main` (src/convert.py lines 150-191): dispatch on `is_dir`, report
errors to stderr, and exit 1 on any raised error, 0 otherwise. -/
def main (p : Pandoc) (args : Args) (w : World) : Nat × World :=
  let standalone := ! args.no_standalone
  let extract_media := ! args.no_media
  if w.fs.isDir args.input then
    match batch_convert p args.input args.output standalone extract_media w with
    | (.ok results, w1) =>
      (0, { w1 with stdoutLines := w1.stdoutLines
        ++ ["Converted " ++ toString results.length ++ " file(s)"] })
    | (.error e, w1) =>
      (1, { w1 with stderrLines := w1.stderrLines ++ ["Error: " ++ e.msg] })
  else
    match convert_docx_to_latex p args.input args.output standalone extract_media w with
    | (.ok _, w1) => (0, w1)
    | (.error e, w1) =>
      (1, { w1 with stderrLines := w1.stderrLines ++ ["Error: " ++ e.msg] })

end convert

/-- An oracle whose exit code and stderr depend only on the command line,
and whose filesystem effect is to add output files. -/
def mkPandoc (rc : List String → Int) (se : List String → String)
    (out : List String → List FsPath) : Pandoc :=
  ⟨fun cmd fs => (⟨rc cmd, se cmd⟩, { fs with files := fs.files ++ out cmd })⟩

/-- The bundle directory computed by `convert_docx_to_latex`:
`<parent>/<base-name>` where the parent defaults to the input's parent. -/
def docDirOf (input : FsPath) (output_dir : Option FsPath) : FsPath :=
  output_dir.getD input.dropLast ++ [pyStem (lastName input)]

/-- The primary output path computed by `convert_docx_to_latex`:
`<base-name>.tex` inside the bundle directory. -/
def outPathOf (input : FsPath) (output_dir : Option FsPath) : FsPath :=
  docDirOf input output_dir ++ [pyStem (lastName input) ++ ".tex"]

/-- The command line `convert_docx_to_latex` passes to the external tool. -/
def cmdOf (input : FsPath) (output_dir : Option FsPath)
    (standalone extract_media : Bool) : List String :=
  buildCmd input (docDirOf input output_dir) (outPathOf input output_dir)
    standalone extract_media

/-- The stderr line batch conversion emits for an item whose external
conversion fails. -/
def batchErrLine (se : List String → String) (op : FsPath) (s m : Bool)
    (f : FsPath) : String :=
  "Error converting " ++ lastName f ++ ": "
    ++ ("Pandoc error: " ++ se (cmdOf f (some op) s m))

/-- One filesystem contains everything another does. -/
def FileSystem.Sub (a b : FileSystem) : Prop :=
  (∀ q, q ∈ a.files → q ∈ b.files) ∧ (∀ q, q ∈ a.dirs → q ∈ b.dirs)

/-- An oracle that never removes files or directories (the real external
tool only writes outputs). -/
def Pandoc.Preserving (p : Pandoc) : Prop :=
  ∀ cmd fs, FileSystem.Sub fs (p.run cmd fs).snd

theorem FileSystem.Sub.rfl (fs : FileSystem) : fs.Sub fs :=
  ⟨fun _ h => h, fun _ h => h⟩

theorem FileSystem.Sub.trans {a b c : FileSystem} (h1 : a.Sub b) (h2 : b.Sub c) :
    a.Sub c :=
  ⟨fun q hq => h2.1 q (h1.1 q hq), fun q hq => h2.2 q (h1.2 q hq)⟩

theorem FileSystem.sub_mkdirParents (fs : FileSystem) (p : FsPath) :
    fs.Sub (fs.mkdirParents p) :=
  ⟨fun _ h => h, fun q hq => by
    simp only [mkdirParents, List.mem_append]; exact Or.inl hq⟩

theorem FileSystem.sub_addFiles (fs : FileSystem) (l : List FsPath) :
    fs.Sub { fs with files := fs.files ++ l } :=
  ⟨fun q hq => by simp only [List.mem_append]; exact Or.inl hq, fun _ h => h⟩

theorem FileSystem.existsPath_mono {a b : FileSystem} (h : a.Sub b) {q : FsPath}
    (hq : a.existsPath q) : b.existsPath q :=
  hq.elim (fun h1 => Or.inl (h.1 q h1)) (fun h1 => Or.inr (h.2 q h1))

theorem mkPandoc_preserving (rc : List String → Int) (se : List String → String)
    (out : List String → List FsPath) : (mkPandoc rc se out).Preserving :=
  fun _ fs => fs.sub_addFiles _

theorem create_zip_archive_fs (doc_dir : FsPath) (doc_name : String)
    (fs : FileSystem) :
    (create_zip_archive doc_dir doc_name fs).snd.snd =
      { fs with files := fs.files ++ [doc_dir ++ [doc_name ++ ".zip"]] } := rfl

theorem convert_eq_notFound (p : Pandoc) (input : FsPath) (o : Option FsPath)
    (s m : Bool) (w : World) (h : ¬ w.fs.existsPath input) :
    convert_docx_to_latex p input o s m w =
      (.error (.fileNotFoundError ("Input file not found: " ++ pathStr input)), w) := by
  simp [convert_docx_to_latex, h]

theorem convert_eq_badSuffix (p : Pandoc) (input : FsPath) (o : Option FsPath)
    (s m : Bool) (w : World) (hex : w.fs.existsPath input)
    (h : ¬ pyLower (pySuffix (lastName input)) = ".docx") :
    convert_docx_to_latex p input o s m w =
      (.error (.valueError ("Input file must be .docx format: " ++ pathStr input)), w) := by
  simp [convert_docx_to_latex, hex, h]

theorem rfindDot_append_docx (pre : List Char) :
    rfindDot (pre ++ ['.', 'd', 'o', 'c', 'x']) = some pre.length := by
  induction pre with
  | nil => rfl
  | cons c cs ih => simp [rfindDot, ih]

/-- A name matched by the pattern `*.docx` that is not the bare name
`.docx` has Python suffix `.docx`, and is its stem followed by `.docx`. -/
theorem docx_name_decomp (name : String) (h5 : endsWithDocx name = true)
    (hne : name ≠ ".docx") :
    pySuffix name = ".docx" ∧
      name.data = (pyStem name).data ++ ['.', 'd', 'o', 'c', 'x'] := by
  have h5' : 5 ≤ name.data.length ∧
      name.data.drop (name.data.length - 5) = ['.', 'd', 'o', 'c', 'x'] := by
    simpa [endsWithDocx] using h5
  obtain ⟨hlen, hdrop⟩ := h5'
  have hsplit : name.data.take (name.data.length - 5)
      ++ ['.', 'd', 'o', 'c', 'x'] = name.data := by
    conv_rhs => rw [← List.take_append_drop (name.data.length - 5) name.data]
    rw [hdrop]
  have htl : (name.data.take (name.data.length - 5)).length
      = name.data.length - 5 := by
    rw [List.length_take]; omega
  have hfind : rfindDot name.data = some (name.data.length - 5) := by
    conv_lhs => rw [← hsplit]
    rw [rfindDot_append_docx, htl]
  have hgt : 5 < name.data.length := by
    rcases Nat.lt_or_ge 5 name.data.length with h | h
    · exact h
    · exfalso
      have hlen5 : name.data.length = 5 := le_antisymm h hlen
      apply hne
      apply String.ext
      rw [← hsplit, hlen5]
      simp
  have hcond : 0 < name.data.length - 5 ∧
      name.data.length - 5 < name.data.length - 1 := by omega
  constructor
  · rw [pySuffix, hfind]
    simp only [hcond, if_pos, and_self, ite_true]
    exact String.ext (by simpa using hdrop)
  · rw [pyStem, hfind]
    simp only [hcond, if_pos, and_self, ite_true]
    simpa using hsplit.symm

/-- Validation in `convert_docx_to_latex` passes for any name matched by
the glob other than the bare `.docx`. -/
theorem docx_name_valid (name : String) (h5 : endsWithDocx name = true)
    (hne : name ≠ ".docx") : pyLower (pySuffix name) = ".docx" := by
  rw [(docx_name_decomp name h5 hne).1]; decide

/-- Names matched by `*.docx`, other than the bare `.docx`, with the same
stem are the same name. -/
theorem docx_name_stem_inj (n1 n2 : String)
    (h1 : endsWithDocx n1 = true) (hne1 : n1 ≠ ".docx")
    (h2 : endsWithDocx n2 = true) (hne2 : n2 ≠ ".docx")
    (hstem : pyStem n1 = pyStem n2) : n1 = n2 := by
  apply String.ext
  rw [(docx_name_decomp n1 h1 hne1).2, (docx_name_decomp n2 h2 hne2).2, hstem]

theorem mem_globDocx (fs : FileSystem) (d e : FsPath) :
    e ∈ globDocx fs d ↔
      (e ∈ fs.files ∨ e ∈ fs.dirs) ∧ e ≠ [] ∧ e.dropLast = d ∧
        endsWithDocx (lastName e) = true := by
  simp [globDocx, List.mem_filter, and_assoc]
  tauto

theorem convert_eq_runFail (p : Pandoc) (input : FsPath) (o : Option FsPath)
    (s m : Bool) (w : World) (hex : w.fs.existsPath input)
    (hsfx : pyLower (pySuffix (lastName input)) = ".docx")
    (hrc : (p.run (cmdOf input o s m)
        (w.fs.mkdirParents (docDirOf input o))).fst.returncode ≠ 0) :
    convert_docx_to_latex p input o s m w =
      (.error (.runtimeError ("Pandoc error: "
          ++ (p.run (cmdOf input o s m)
              (w.fs.mkdirParents (docDirOf input o))).fst.stderr)),
       { fs := (p.run (cmdOf input o s m)
            (w.fs.mkdirParents (docDirOf input o))).snd
         calls := w.calls ++ [cmdOf input o s m]
         stdoutLines := w.stdoutLines
           ++ ["Converting: " ++ lastName input ++ " -> "
               ++ pyStem (lastName input) ++ "/" ++ lastName (outPathOf input o)]
         stderrLines := w.stderrLines }) := by
  simp [cmdOf, docDirOf, outPathOf, buildCmd] at hrc
  simp [convert_docx_to_latex, hex, hsfx, hrc, cmdOf, docDirOf, outPathOf, buildCmd]

theorem convert_eq_runOk (p : Pandoc) (input : FsPath) (o : Option FsPath)
    (s m : Bool) (w : World) (hex : w.fs.existsPath input)
    (hsfx : pyLower (pySuffix (lastName input)) = ".docx")
    (hrc : (p.run (cmdOf input o s m)
        (w.fs.mkdirParents (docDirOf input o))).fst.returncode = 0) :
    convert_docx_to_latex p input o s m w =
      (.ok (outPathOf input o),
       { fs := (create_zip_archive (docDirOf input o) (pyStem (lastName input))
            (p.run (cmdOf input o s m)
              (w.fs.mkdirParents (docDirOf input o))).snd).snd.snd
         calls := w.calls ++ [cmdOf input o s m]
         stdoutLines := w.stdoutLines
           ++ ["Converting: " ++ lastName input ++ " -> "
                 ++ pyStem (lastName input) ++ "/" ++ lastName (outPathOf input o),
               "Successfully created: " ++ pathStr (outPathOf input o),
               "Created archive: " ++ pathStr (docDirOf input o
                 ++ [pyStem (lastName input) ++ ".zip"])]
         stderrLines := w.stderrLines }) := by
  simp [cmdOf, docDirOf, outPathOf, buildCmd] at hrc
  simp [convert_docx_to_latex, hex, hsfx, hrc, cmdOf, docDirOf, outPathOf,
    buildCmd, create_zip_archive]

/-- `convert_docx_to_latex` never writes to stderr. -/
theorem convert_stderr (p : Pandoc) (input : FsPath) (o : Option FsPath)
    (s m : Bool) (w : World) :
    (convert_docx_to_latex p input o s m w).snd.stderrLines = w.stderrLines := by
  by_cases hex : w.fs.existsPath input
  · by_cases hsfx : pyLower (pySuffix (lastName input)) = ".docx"
    · by_cases hrc : (p.run (cmdOf input o s m)
          (w.fs.mkdirParents (docDirOf input o))).fst.returncode = 0
      · rw [convert_eq_runOk p input o s m w hex hsfx hrc]
      · rw [convert_eq_runFail p input o s m w hex hsfx hrc]
    · rw [convert_eq_badSuffix p input o s m w hex hsfx]
  · rw [convert_eq_notFound p input o s m w hex]

/-- With an oracle that never removes filesystem entries, a conversion
only grows the filesystem. -/
theorem convert_sub (p : Pandoc) (hp : p.Preserving) (input : FsPath)
    (o : Option FsPath) (s m : Bool) (w : World) :
    w.fs.Sub (convert_docx_to_latex p input o s m w).snd.fs := by
  by_cases hex : w.fs.existsPath input
  · by_cases hsfx : pyLower (pySuffix (lastName input)) = ".docx"
    · by_cases hrc : (p.run (cmdOf input o s m)
          (w.fs.mkdirParents (docDirOf input o))).fst.returncode = 0
      · rw [convert_eq_runOk p input o s m w hex hsfx hrc]
        have h1 := w.fs.sub_mkdirParents (docDirOf input o)
        have h2 := hp (cmdOf input o s m) (w.fs.mkdirParents (docDirOf input o))
        have h3 : ((p.run (cmdOf input o s m)
            (w.fs.mkdirParents (docDirOf input o))).snd).Sub
            (create_zip_archive (docDirOf input o) (pyStem (lastName input))
              (p.run (cmdOf input o s m)
                (w.fs.mkdirParents (docDirOf input o))).snd).snd.snd := by
          rw [create_zip_archive_fs]
          exact FileSystem.sub_addFiles _ _
        exact (h1.trans h2).trans h3
      · rw [convert_eq_runFail p input o s m w hex hsfx hrc]
        exact (w.fs.sub_mkdirParents (docDirOf input o)).trans
          (hp (cmdOf input o s m) (w.fs.mkdirParents (docDirOf input o)))
    · rw [convert_eq_badSuffix p input o s m w hex hsfx]
      exact FileSystem.Sub.rfl _
  · rw [convert_eq_notFound p input o s m w hex]
    exact FileSystem.Sub.rfl _

/-- With a command-determined oracle, a conversion whose command exits 0
succeeds with the expected output path, growing the filesystem and
leaving stderr unchanged. -/
theorem convert_mkPandoc_ok (rc : List String → Int) (se : List String → String)
    (out : List String → List FsPath) (input : FsPath) (o : Option FsPath)
    (s m : Bool) (w : World) (hex : w.fs.existsPath input)
    (hsfx : pyLower (pySuffix (lastName input)) = ".docx")
    (hrc : rc (cmdOf input o s m) = 0) :
    ∃ w1 : World,
      convert_docx_to_latex (mkPandoc rc se out) input o s m w
        = (.ok (outPathOf input o), w1)
      ∧ w.fs.Sub w1.fs ∧ w1.stderrLines = w.stderrLines := by
  have hrc' : ((mkPandoc rc se out).run (cmdOf input o s m)
      (w.fs.mkdirParents (docDirOf input o))).fst.returncode = 0 := hrc
  have hrun := convert_eq_runOk (mkPandoc rc se out) input o s m w hex hsfx hrc'
  have hsub := convert_sub (mkPandoc rc se out) (mkPandoc_preserving rc se out)
    input o s m w
  have hstd := convert_stderr (mkPandoc rc se out) input o s m w
  refine ⟨(convert_docx_to_latex (mkPandoc rc se out) input o s m w).snd,
    ?_, hsub, hstd⟩
  rw [hrun]

/-- With a command-determined oracle, a conversion whose command exits
nonzero fails with the captured stderr in a RuntimeError, growing the
filesystem and leaving stderr unchanged. -/
theorem convert_mkPandoc_fail (rc : List String → Int) (se : List String → String)
    (out : List String → List FsPath) (input : FsPath) (o : Option FsPath)
    (s m : Bool) (w : World) (hex : w.fs.existsPath input)
    (hsfx : pyLower (pySuffix (lastName input)) = ".docx")
    (hrc : rc (cmdOf input o s m) ≠ 0) :
    ∃ w1 : World,
      convert_docx_to_latex (mkPandoc rc se out) input o s m w
        = (.error (.runtimeError ("Pandoc error: " ++ se (cmdOf input o s m))), w1)
      ∧ w.fs.Sub w1.fs ∧ w1.stderrLines = w.stderrLines := by
  have hrc' : ((mkPandoc rc se out).run (cmdOf input o s m)
      (w.fs.mkdirParents (docDirOf input o))).fst.returncode ≠ 0 := hrc
  have hrun := convert_eq_runFail (mkPandoc rc se out) input o s m w hex hsfx hrc'
  have hsub := convert_sub (mkPandoc rc se out) (mkPandoc_preserving rc se out)
    input o s m w
  have hstd := convert_stderr (mkPandoc rc se out) input o s m w
  refine ⟨(convert_docx_to_latex (mkPandoc rc se out) input o s m w).snd,
    ?_, hsub, hstd⟩
  rw [hrun]
  rfl

/-- Behaviour of the sequential batch loop with an oracle whose exit code
depends only on the command: successes are exactly the items whose pandoc
invocation exits 0, failures are reported to stderr in order, and the
filesystem only grows. -/
theorem batchLoop_mkPandoc (rc : List String → Int) (se : List String → String)
    (out : List String → List FsPath) (op : FsPath) (s m : Bool) :
    ∀ (files : List FsPath) (w : World),
    (∀ f ∈ files, w.fs.existsPath f) →
    (∀ f ∈ files, pyLower (pySuffix (lastName f)) = ".docx") →
    (batchLoop (mkPandoc rc se out) files op s m w).fst
      = (files.filter (fun f => decide (rc (cmdOf f (some op) s m) = 0))).map
          (fun f => outPathOf f (some op))
    ∧ (batchLoop (mkPandoc rc se out) files op s m w).snd.stderrLines
      = w.stderrLines
        ++ (files.filter
              (fun f => ! decide (rc (cmdOf f (some op) s m) = 0))).map
            (batchErrLine se op s m)
    ∧ w.fs.Sub (batchLoop (mkPandoc rc se out) files op s m w).snd.fs := by
  intro files
  induction files with
  | nil =>
    intro w _ _
    exact ⟨rfl, by simp [batchLoop], FileSystem.Sub.rfl _⟩
  | cons f rest ih =>
    intro w hex hsfx
    have hexf : w.fs.existsPath f := hex f (List.mem_cons_self f rest)
    have hsfxf := hsfx f (List.mem_cons_self f rest)
    by_cases hrc : rc (cmdOf f (some op) s m) = 0
    · obtain ⟨w1, hpair, hsub1, hstd1⟩ :=
        convert_mkPandoc_ok rc se out f (some op) s m w hexf hsfxf hrc
      obtain ⟨ih1, ih2, ih3⟩ := ih w1
        (fun f' hf' => FileSystem.existsPath_mono hsub1
          (hex f' (List.mem_cons_of_mem f hf')))
        (fun f' hf' => hsfx f' (List.mem_cons_of_mem f hf'))
      simp only [batchLoop, hpair]
      refine ⟨?_, ?_, ?_⟩
      · simp [hrc, ih1]
      · simp only [ih2, hstd1]
        simp [hrc]
      · exact hsub1.trans ih3
    · obtain ⟨w1, hpair, hsub1, hstd1⟩ :=
        convert_mkPandoc_fail rc se out f (some op) s m w hexf hsfxf hrc
      obtain ⟨ih1, ih2, ih3⟩ := ih
        { fs := w1.fs, calls := w1.calls, stdoutLines := w1.stdoutLines,
          stderrLines := w.stderrLines
            ++ ["Error converting " ++ lastName f ++ ": "
                ++ ("Pandoc error: " ++ se (cmdOf f (some op) s m))] }
        (fun f' hf' => FileSystem.existsPath_mono hsub1
          (hex f' (List.mem_cons_of_mem f hf')))
        (fun f' hf' => hsfx f' (List.mem_cons_of_mem f hf'))
      simp only [batchLoop, hpair, PyError.msg, hstd1]
      refine ⟨?_, ?_, ?_⟩
      · simp [hrc, ih1]
      · simp [hrc, ih2, batchErrLine]
      · exact hsub1.trans ih3

/-- Characterization of `batch_convert` with a command-determined oracle,
assuming every enumerated candidate genuinely carries the `.docx`
extension (name not exactly `.docx`): it returns the successes in order,
logs one stderr line per failing item, and reports an empty match set. -/
theorem batch_convert_mkPandoc (rc : List String → Int) (se : List String → String)
    (out : List String → List FsPath) (input_dir : FsPath)
    (output_dir : Option FsPath) (s m : Bool) (w : World)
    (hdir : w.fs.isDir input_dir)
    (hnames : ∀ f ∈ batchCandidates w.fs input_dir (output_dir.getD input_dir),
      lastName f ≠ ".docx") :
    (batch_convert (mkPandoc rc se out) input_dir output_dir s m w).fst
      = .ok (((batchCandidates w.fs input_dir (output_dir.getD input_dir)).filter
          (fun f => decide (rc (cmdOf f (some (output_dir.getD input_dir)) s m) = 0))).map
            (fun f => outPathOf f (some (output_dir.getD input_dir))))
    ∧ (batch_convert (mkPandoc rc se out) input_dir output_dir s m w).snd.stderrLines
      = w.stderrLines
        ++ ((batchCandidates w.fs input_dir (output_dir.getD input_dir)).filter
            (fun f => ! decide (rc (cmdOf f (some (output_dir.getD input_dir)) s m) = 0))).map
              (batchErrLine se (output_dir.getD input_dir) s m)
    ∧ (batchCandidates w.fs input_dir (output_dir.getD input_dir) = [] →
        (batch_convert (mkPandoc rc se out) input_dir output_dir s m w).snd.stdoutLines
          = w.stdoutLines ++ ["No .docx files found in " ++ pathStr input_dir]) := by
  have hex2 : ∀ f ∈ batchCandidates w.fs input_dir (output_dir.getD input_dir),
      (w.fs.mkdirParents (output_dir.getD input_dir)).existsPath f := by
    intro f hf
    simp only [batchCandidates] at hf
    exact ((mem_globDocx _ _ _).mp hf).1
  have hsfx2 : ∀ f ∈ batchCandidates w.fs input_dir (output_dir.getD input_dir),
      pyLower (pySuffix (lastName f)) = ".docx" := by
    intro f hf
    have hm := (mem_globDocx _ _ _).mp (by simpa [batchCandidates] using hf)
    exact docx_name_valid _ hm.2.2.2 (hnames f hf)
  by_cases hempty : batchCandidates w.fs input_dir (output_dir.getD input_dir) = []
  · have hempty' : globDocx (w.fs.mkdirParents (output_dir.getD input_dir)) input_dir
        = [] := hempty
    refine ⟨?_, ?_, ?_⟩ <;>
      simp [batch_convert, hdir, hempty', hempty]
  · have hempty' : (globDocx (w.fs.mkdirParents (output_dir.getD input_dir))
        input_dir).isEmpty = false := by
      have : batchCandidates w.fs input_dir (output_dir.getD input_dir) ≠ [] := hempty
      simpa [batchCandidates, List.isEmpty_iff] using this
    obtain ⟨h1, h2, h3⟩ := batchLoop_mkPandoc rc se out (output_dir.getD input_dir)
      s m (batchCandidates w.fs input_dir (output_dir.getD input_dir))
      { fs := w.fs.mkdirParents (output_dir.getD input_dir)
        calls := w.calls
        stdoutLines := w.stdoutLines
          ++ ["Found " ++ toString (batchCandidates w.fs input_dir
                (output_dir.getD input_dir)).length ++ " Word document(s)"]
        stderrLines := w.stderrLines }
      hex2 hsfx2
    refine ⟨?_, ?_, fun h => absurd h hempty⟩
    · simpa [batch_convert, hdir, hempty', batchCandidates] using h1
    · simpa [batch_convert, hdir, hempty', batchCandidates] using h2

/-- When the input is a directory, `batch_convert` never raises. -/
theorem batch_convert_ok_of_isDir (p : Pandoc) (input_dir : FsPath)
    (output_dir : Option FsPath) (s m : Bool) (w : World)
    (hdir : w.fs.isDir input_dir) :
    ∃ rs w1, batch_convert p input_dir output_dir s m w = (.ok rs, w1) := by
  simp only [batch_convert, hdir, not_true_eq_false, if_false]
  split
  · exact ⟨_, _, rfl⟩
  · exact ⟨_, _, rfl⟩

/-- When the input is a directory, `main` always exits 0. -/
theorem main_exit0_of_isDir (p : Pandoc) (args : Args) (w : World)
    (hdir : w.fs.isDir args.input) : (convert.main p args w).fst = 0 := by
  obtain ⟨rs, w1, hb⟩ := batch_convert_ok_of_isDir p args.input args.output
    (! args.no_standalone) (! args.no_media) w hdir
  simp [convert.main, hdir, hb]

/-- A pandoc oracle that always succeeds and writes nothing. -/
def pandocOk : Pandoc := mkPandoc (fun _ => 0) (fun _ => "") (fun _ => [])

/-- A pandoc oracle that always exits 1 with diagnostic text `boom`. -/
def pandocFail : Pandoc := mkPandoc (fun _ => 1) (fun _ => "boom") (fun _ => [])

/-- A small world: directory `/docs` holding the file `report.docx`. -/
def wDocs : World :=
  ⟨⟨[["docs", "report.docx"]], [["docs"]]⟩, [], [], []⟩

/-- C1: for every valid input whose conversion succeeds, the returned
primary output path is `<parent>/<base-name>/<base-name>.tex`, where
base-name is the input name with its extension stripped and parent is the
given output directory or else the input's own parent, and the bundle
directory `<parent>/<base-name>` (with any absent ancestors) has been
created. -/
theorem c1_bundle_layout (p : Pandoc) (input : FsPath) (o : Option FsPath)
    (s m : Bool) (w : World) (res : FsPath) (hp : p.Preserving)
    (hok : (convert_docx_to_latex p input o s m w).fst = .ok res) :
    res = o.getD input.dropLast
        ++ [pyStem (lastName input), pyStem (lastName input) ++ ".tex"]
    ∧ ∀ q ∈ initsOf (o.getD input.dropLast ++ [pyStem (lastName input)]),
        (convert_docx_to_latex p input o s m w).snd.fs.isDir q := by
  by_cases hex : w.fs.existsPath input
  case neg =>
    rw [convert_eq_notFound p input o s m w hex] at hok
    simp at hok
  by_cases hsfx : pyLower (pySuffix (lastName input)) = ".docx"
  case neg =>
    rw [convert_eq_badSuffix p input o s m w hex hsfx] at hok
    simp at hok
  by_cases hrc : (p.run (cmdOf input o s m)
      (w.fs.mkdirParents (docDirOf input o))).fst.returncode = 0
  case neg =>
    rw [convert_eq_runFail p input o s m w hex hsfx hrc] at hok
    simp at hok
  rw [convert_eq_runOk p input o s m w hex hsfx hrc] at hok
  constructor
  · have hres : outPathOf input o = res := by simpa using hok
    rw [← hres]
    simp [outPathOf, docDirOf]
  · intro q hq
    rw [convert_eq_runOk p input o s m w hex hsfx hrc]
    have h1 : (w.fs.mkdirParents (docDirOf input o)).isDir q := by
      simp only [FileSystem.mkdirParents, FileSystem.isDir, List.mem_append]
      right
      exact hq
    have h2 := (hp (cmdOf input o s m)
      (w.fs.mkdirParents (docDirOf input o))).2 q h1
    show (create_zip_archive (docDirOf input o) (pyStem (lastName input))
      (p.run (cmdOf input o s m)
        (w.fs.mkdirParents (docDirOf input o))).snd).snd.snd.isDir q
    rw [create_zip_archive_fs]
    exact h2

theorem c1_witness :
    (["docs", "report", "report.tex"] : FsPath)
      = (none : Option FsPath).getD (["docs", "report.docx"] : FsPath).dropLast
        ++ [pyStem (lastName ["docs", "report.docx"]),
            pyStem (lastName ["docs", "report.docx"]) ++ ".tex"]
    ∧ ∀ q ∈ initsOf ((none : Option FsPath).getD
          (["docs", "report.docx"] : FsPath).dropLast
        ++ [pyStem (lastName ["docs", "report.docx"])]),
        (convert_docx_to_latex pandocOk ["docs", "report.docx"] none true true
          wDocs).snd.fs.isDir q :=
  c1_bundle_layout pandocOk ["docs", "report.docx"] none true true wDocs
    ["docs", "report", "report.tex"]
    (mkPandoc_preserving (fun _ => 0) (fun _ => "") (fun _ => []))
    (by decide)

/-- C4: for every request that reaches the external tool, the recorded
invocation is exactly `pandoc <input> [-s] [--extract-media <bundle-dir>]
-o <output>`, with `-s` present iff standalone and the media flag present
iff extract_media, pointing the converter at the bundle directory (whose
`media` subdirectory receives extracted assets by the tool's layout). -/
theorem c4_invocation_shape (p : Pandoc) (input : FsPath) (o : Option FsPath)
    (s m : Bool) (w : World) (hex : w.fs.existsPath input)
    (hsfx : pyLower (pySuffix (lastName input)) = ".docx") :
    (convert_docx_to_latex p input o s m w).snd.calls
      = w.calls
        ++ [["pandoc", pathStr input]
            ++ (if s then ["-s"] else [])
            ++ (if m then ["--extract-media", pathStr (docDirOf input o)] else [])
            ++ ["-o", pathStr (outPathOf input o)]] := by
  by_cases hrc : (p.run (cmdOf input o s m)
      (w.fs.mkdirParents (docDirOf input o))).fst.returncode = 0
  · rw [convert_eq_runOk p input o s m w hex hsfx hrc]
    simp [cmdOf, buildCmd]
  · rw [convert_eq_runFail p input o s m w hex hsfx hrc]
    simp [cmdOf, buildCmd]

theorem c4_witness :
    (convert_docx_to_latex pandocOk ["docs", "report.docx"] none true true
        wDocs).snd.calls
      = ([] : List (List String))
        ++ [["pandoc", pathStr ["docs", "report.docx"]]
            ++ (if true then ["-s"] else [])
            ++ (if true then ["--extract-media",
                  pathStr (docDirOf ["docs", "report.docx"] none)] else [])
            ++ ["-o", pathStr (outPathOf ["docs", "report.docx"] none)]] :=
  c4_invocation_shape pandocOk ["docs", "report.docx"] none true true wDocs
    (by decide) (by decide)

/-- C5: if the external process exits nonzero the conversion fails with a
RuntimeError carrying the captured stderr and the world is exactly the
post-run world (bundle directory and whatever the tool wrote are left
as-is, nothing cleaned up); if it exits zero no such error is raised and
the conversion returns the output path. -/
theorem c5_external_failure (p : Pandoc) (input : FsPath) (o : Option FsPath)
    (s m : Bool) (w : World) (hex : w.fs.existsPath input)
    (hsfx : pyLower (pySuffix (lastName input)) = ".docx") :
    ((p.run (cmdOf input o s m)
        (w.fs.mkdirParents (docDirOf input o))).fst.returncode ≠ 0 →
      convert_docx_to_latex p input o s m w
        = (.error (.runtimeError ("Pandoc error: "
              ++ (p.run (cmdOf input o s m)
                  (w.fs.mkdirParents (docDirOf input o))).fst.stderr)),
           { fs := (p.run (cmdOf input o s m)
                (w.fs.mkdirParents (docDirOf input o))).snd
             calls := w.calls ++ [cmdOf input o s m]
             stdoutLines := w.stdoutLines
               ++ ["Converting: " ++ lastName input ++ " -> "
                   ++ pyStem (lastName input) ++ "/"
                   ++ lastName (outPathOf input o)]
             stderrLines := w.stderrLines }))
    ∧ ((p.run (cmdOf input o s m)
        (w.fs.mkdirParents (docDirOf input o))).fst.returncode = 0 →
      (convert_docx_to_latex p input o s m w).fst = .ok (outPathOf input o)) :=
  ⟨fun hrc => convert_eq_runFail p input o s m w hex hsfx hrc,
   fun hrc => by rw [convert_eq_runOk p input o s m w hex hsfx hrc]⟩

theorem c5_witness :
    ((pandocFail.run (cmdOf ["docs", "report.docx"] none true true)
        (wDocs.fs.mkdirParents
          (docDirOf ["docs", "report.docx"] none))).fst.returncode ≠ 0 →
      convert_docx_to_latex pandocFail ["docs", "report.docx"] none true true wDocs
        = (.error (.runtimeError ("Pandoc error: "
              ++ (pandocFail.run (cmdOf ["docs", "report.docx"] none true true)
                  (wDocs.fs.mkdirParents
                    (docDirOf ["docs", "report.docx"] none))).fst.stderr)),
           { fs := (pandocFail.run (cmdOf ["docs", "report.docx"] none true true)
                (wDocs.fs.mkdirParents
                  (docDirOf ["docs", "report.docx"] none))).snd
             calls := wDocs.calls ++ [cmdOf ["docs", "report.docx"] none true true]
             stdoutLines := wDocs.stdoutLines
               ++ ["Converting: " ++ lastName ["docs", "report.docx"] ++ " -> "
                   ++ pyStem (lastName ["docs", "report.docx"]) ++ "/"
                   ++ lastName (outPathOf ["docs", "report.docx"] none)]
             stderrLines := wDocs.stderrLines }))
    ∧ ((pandocFail.run (cmdOf ["docs", "report.docx"] none true true)
        (wDocs.fs.mkdirParents
          (docDirOf ["docs", "report.docx"] none))).fst.returncode = 0 →
      (convert_docx_to_latex pandocFail ["docs", "report.docx"] none true true
        wDocs).fst = .ok (outPathOf ["docs", "report.docx"] none)) :=
  c5_external_failure pandocFail ["docs", "report.docx"] none true true wDocs
    (by decide) (by decide)

/-- C6: an existing input whose extension does not equal `.docx` under
case-insensitive comparison fails with a ValueError (FormatMismatch), and
the world is returned unchanged: no bundle directory is created and no
external process is invoked, whatever the oracle. -/
theorem c6_format_mismatch (p : Pandoc) (input : FsPath) (o : Option FsPath)
    (s m : Bool) (w : World) (hex : w.fs.existsPath input)
    (hsfx : ¬ pyLower (pySuffix (lastName input)) = ".docx") :
    convert_docx_to_latex p input o s m w
      = (.error (.valueError ("Input file must be .docx format: "
          ++ pathStr input)), w) :=
  convert_eq_badSuffix p input o s m w hex hsfx

theorem c6_witness :
    convert_docx_to_latex pandocOk ["docs", "notes.txt"] none true true
        ⟨⟨[["docs", "notes.txt"]], [["docs"]]⟩, [], [], []⟩
      = (.error (.valueError ("Input file must be .docx format: "
          ++ pathStr ["docs", "notes.txt"])),
         ⟨⟨[["docs", "notes.txt"]], [["docs"]]⟩, [], [], []⟩) :=
  c6_format_mismatch pandocOk ["docs", "notes.txt"] none true true
    ⟨⟨[["docs", "notes.txt"]], [["docs"]]⟩, [], [], []⟩ (by decide) (by decide)

/-- C7: a missing input path fails with a FileNotFoundError (NotFound)
and the world is returned unchanged: no bundle directory is created and
no filesystem state is touched, whatever the oracle. -/
theorem c7_not_found (p : Pandoc) (input : FsPath) (o : Option FsPath)
    (s m : Bool) (w : World) (hex : ¬ w.fs.existsPath input) :
    convert_docx_to_latex p input o s m w
      = (.error (.fileNotFoundError ("Input file not found: "
          ++ pathStr input)), w) :=
  convert_eq_notFound p input o s m w hex

theorem c7_witness :
    convert_docx_to_latex pandocOk ["docs", "missing.docx"] none true true wDocs
      = (.error (.fileNotFoundError ("Input file not found: "
          ++ pathStr ["docs", "missing.docx"])), wDocs) :=
  c7_not_found pandocOk ["docs", "missing.docx"] none true true wDocs (by decide)

/-- C2: `create_zip_archive` produces the archive at
`<bundle>/<base-name>.zip` and returns that path unconditionally; its
entries are exactly the primary output file at the archive root under its
own name when it exists on disk at call time (silently skipped otherwise)
plus one `media/<relative-path>` entry per regular file under the `media`
subdirectory (when that subdirectory exists), every entry deflated; the
only filesystem change is the archive file itself. -/
theorem c2_archive_contents (doc_dir : FsPath) (doc_name : String)
    (fs : FileSystem) :
    (create_zip_archive doc_dir doc_name fs).fst = doc_dir ++ [doc_name ++ ".zip"]
    ∧ (create_zip_archive doc_dir doc_name fs).snd.snd
        = { fs with files := fs.files ++ [doc_dir ++ [doc_name ++ ".zip"]] }
    ∧ (∀ e : ZipEntry, e ∈ (create_zip_archive doc_dir doc_name fs).snd.fst ↔
        ((({ fs with files := fs.files ++ [doc_dir ++ [doc_name ++ ".zip"]] }
              : FileSystem).existsPath (doc_dir ++ [doc_name ++ ".tex"]) ∧
           e = ⟨lastName (doc_dir ++ [doc_name ++ ".tex"]),
                doc_dir ++ [doc_name ++ ".tex"], .deflated⟩)
         ∨ (({ fs with files := fs.files ++ [doc_dir ++ [doc_name ++ ".zip"]] }
              : FileSystem).existsPath (doc_dir ++ ["media"]) ∧
           ∃ f, f ∈ ({ fs with files := fs.files
                ++ [doc_dir ++ [doc_name ++ ".zip"]] } : FileSystem).files
             ∧ underDir (doc_dir ++ ["media"]) f
             ∧ e = ⟨mediaArcname (doc_dir ++ ["media"]) f, f, .deflated⟩)))
    ∧ (∀ e ∈ (create_zip_archive doc_dir doc_name fs).snd.fst,
        e.method = CompressionMethod.deflated) := by
  refine ⟨rfl, rfl, ?_, ?_⟩
  · intro e
    by_cases h1 : ({ fs with files := fs.files ++ [doc_dir ++ [doc_name ++ ".zip"]] }
        : FileSystem).existsPath (doc_dir ++ [doc_name ++ ".tex"]) <;>
      by_cases h2 : ({ fs with files := fs.files ++ [doc_dir ++ [doc_name ++ ".zip"]] }
          : FileSystem).existsPath (doc_dir ++ ["media"]) <;>
        simp [create_zip_archive, h1, h2, List.mem_filter, and_assoc, eq_comm,
          or_and_right, exists_or]
  · intro e he
    simp only [create_zip_archive] at he
    rcases List.mem_append.mp he with h | h
    · split at h
      · rcases List.mem_singleton.mp h with rfl
        rfl
      · exact absurd h (List.not_mem_nil e)
    · split at h
      · obtain ⟨f, _, rfl⟩ := List.mem_map.mp h
        rfl
      · exact absurd h (List.not_mem_nil e)

theorem c2_witness :
    (create_zip_archive ["docs", "report"] "report"
        ⟨[["docs", "report", "report.tex"],
          ["docs", "report", "media", "img1.png"]],
         [["docs"], ["docs", "report"], ["docs", "report", "media"]]⟩).fst
      = ["docs", "report"] ++ ["report" ++ ".zip"] :=
  (c2_archive_contents ["docs", "report"] "report"
    ⟨[["docs", "report", "report.tex"],
      ["docs", "report", "media", "img1.png"]],
     [["docs"], ["docs", "report"], ["docs", "report", "media"]]⟩).1

theorem length_filter_sub {α : Type} (l : List α) (f : α → Bool) :
    (l.filter f).length = l.length - (l.filter (fun x => ! f x)).length := by
  have h := List.length_eq_length_filter_add (l := l) f
  omega

/-- Two files in `/docs`: `a.docx` and `b.docx`. -/
def wAB : World :=
  ⟨⟨[["docs", "a.docx"], ["docs", "b.docx"]], [["docs"]]⟩, [], [], []⟩

/-- An exit-code assignment that fails exactly the command mentioning
`/docs/a.docx`. -/
def rcFailA : List String → Int :=
  fun cmd => if "/docs/a.docx" ∈ cmd then 1 else 0

/-- C3: over a directory whose enumerated candidates all carry the
`.docx` extension, the batch driver returns exactly the N−K successes
(N enumerated, K failing their external conversion), reports each failure
to stderr with the file name and message and continues, reports and
returns an empty list when nothing matches, and the process exit code is
0 in all these cases. -/
theorem c3_batch_isolation (rc : List String → Int) (se : List String → String)
    (out : List String → List FsPath) (input_dir : FsPath)
    (output_dir : Option FsPath) (s m : Bool) (w : World)
    (hdir : w.fs.isDir input_dir)
    (hnames : ∀ f ∈ batchCandidates w.fs input_dir (output_dir.getD input_dir),
      lastName f ≠ ".docx") :
    (∃ converted : List FsPath,
      (batch_convert (mkPandoc rc se out) input_dir output_dir s m w).fst
        = .ok converted
      ∧ converted.length
        = (batchCandidates w.fs input_dir (output_dir.getD input_dir)).length
          - ((batchCandidates w.fs input_dir (output_dir.getD input_dir)).filter
              (fun f => ! decide (rc (cmdOf f
                (some (output_dir.getD input_dir)) s m) = 0))).length)
    ∧ (batch_convert (mkPandoc rc se out) input_dir output_dir s m w).snd.stderrLines
      = w.stderrLines
        ++ ((batchCandidates w.fs input_dir (output_dir.getD input_dir)).filter
            (fun f => ! decide (rc (cmdOf f
              (some (output_dir.getD input_dir)) s m) = 0))).map
              (batchErrLine se (output_dir.getD input_dir) s m)
    ∧ (batchCandidates w.fs input_dir (output_dir.getD input_dir) = [] →
        (batch_convert (mkPandoc rc se out) input_dir output_dir s m w).fst = .ok []
        ∧ (batch_convert (mkPandoc rc se out) input_dir output_dir
            s m w).snd.stdoutLines
          = w.stdoutLines ++ ["No .docx files found in " ++ pathStr input_dir])
    ∧ (∀ ns nm : Bool,
        (convert.main (mkPandoc rc se out) ⟨input_dir, output_dir, ns, nm⟩ w).fst
          = 0) := by
  obtain ⟨hb1, hb2, hb3⟩ := batch_convert_mkPandoc rc se out input_dir output_dir
    s m w hdir hnames
  refine ⟨⟨_, hb1, ?_⟩, hb2, ?_, ?_⟩
  · rw [List.length_map]
    exact length_filter_sub _ _
  · intro hcand
    refine ⟨?_, hb3 hcand⟩
    rw [hb1, hcand]
    rfl
  · intro ns nm
    exact main_exit0_of_isDir _ ⟨input_dir, output_dir, ns, nm⟩ w hdir

theorem c3_witness :
    ∃ converted : List FsPath,
      (batch_convert (mkPandoc rcFailA (fun _ => "boom") (fun _ => []))
        ["docs"] none true true wAB).fst = .ok converted
      ∧ converted.length
        = (batchCandidates wAB.fs ["docs"]
            ((none : Option FsPath).getD ["docs"])).length
          - ((batchCandidates wAB.fs ["docs"]
              ((none : Option FsPath).getD ["docs"])).filter
              (fun f => ! decide (rcFailA (cmdOf f
                (some ((none : Option FsPath).getD ["docs"])) true true)
                  = 0))).length :=
  (c3_batch_isolation rcFailA (fun _ => "boom") (fun _ => []) ["docs"] none
    true true wAB (by decide) (by decide)).1

/-- C8: the entry point exits 0 when the input is a directory (batch
completion, even with per-item failures) and when a single file converts;
it exits 1 exactly when the top-level operation raises: in single-file
mode the exit code is 0 or 1 according to the conversion's outcome, and
in particular a missing input, a wrong extension, or a failing external
process each yield exit code 1. -/
theorem c8_exit_codes (p : Pandoc) (args : Args) (w : World) :
    (w.fs.isDir args.input → (convert.main p args w).fst = 0)
    ∧ (¬ w.fs.isDir args.input →
        (convert.main p args w).fst
          = match (convert_docx_to_latex p args.input args.output
              (! args.no_standalone) (! args.no_media) w).fst with
            | .ok _ => 0
            | .error _ => 1)
    ∧ (¬ w.fs.existsPath args.input → (convert.main p args w).fst = 1)
    ∧ (w.fs.existsPath args.input → ¬ w.fs.isDir args.input →
        ¬ pyLower (pySuffix (lastName args.input)) = ".docx" →
        (convert.main p args w).fst = 1)
    ∧ (w.fs.existsPath args.input → ¬ w.fs.isDir args.input →
        pyLower (pySuffix (lastName args.input)) = ".docx" →
        (p.run (cmdOf args.input args.output
            (! args.no_standalone) (! args.no_media))
          (w.fs.mkdirParents
            (docDirOf args.input args.output))).fst.returncode ≠ 0 →
        (convert.main p args w).fst = 1)
    ∧ (w.fs.existsPath args.input → ¬ w.fs.isDir args.input →
        pyLower (pySuffix (lastName args.input)) = ".docx" →
        (p.run (cmdOf args.input args.output
            (! args.no_standalone) (! args.no_media))
          (w.fs.mkdirParents
            (docDirOf args.input args.output))).fst.returncode = 0 →
        (convert.main p args w).fst = 0) := by
  have hsingle : ∀ hdir : ¬ w.fs.isDir args.input,
      (convert.main p args w).fst
        = match (convert_docx_to_latex p args.input args.output
            (! args.no_standalone) (! args.no_media) w).fst with
          | .ok _ => 0
          | .error _ => 1 := by
    intro hdir
    rcases hres : convert_docx_to_latex p args.input args.output
      (! args.no_standalone) (! args.no_media) w with ⟨res, w1⟩
    cases res with
    | ok r => simp [convert.main, hdir, hres]
    | error e => simp [convert.main, hdir, hres]
  refine ⟨fun hdir => main_exit0_of_isDir p args w hdir, hsingle, ?_, ?_, ?_, ?_⟩
  · intro hex
    have hdir : ¬ w.fs.isDir args.input := fun h => hex (Or.inr h)
    rw [hsingle hdir, convert_eq_notFound p args.input args.output
      (! args.no_standalone) (! args.no_media) w hex]
  · intro hex hdir hsfx
    rw [hsingle hdir, convert_eq_badSuffix p args.input args.output
      (! args.no_standalone) (! args.no_media) w hex hsfx]
  · intro hex hdir hsfx hrc
    rw [hsingle hdir, convert_eq_runFail p args.input args.output
      (! args.no_standalone) (! args.no_media) w hex hsfx hrc]
  · intro hex hdir hsfx hrc
    rw [hsingle hdir, convert_eq_runOk p args.input args.output
      (! args.no_standalone) (! args.no_media) w hex hsfx hrc]

theorem c8_witness :
    (convert.main pandocOk ⟨["docs"], none, false, false⟩ wDocs).fst = 0
    ∧ (convert.main pandocOk ⟨["docs", "missing.docx"], none, false, false⟩
        wDocs).fst = 1
    ∧ (convert.main pandocFail ⟨["docs", "report.docx"], none, false, false⟩
        wDocs).fst = 1 :=
  ⟨(c8_exit_codes pandocOk ⟨["docs"], none, false, false⟩ wDocs).1 (by decide),
   (c8_exit_codes pandocOk ⟨["docs", "missing.docx"], none, false, false⟩
     wDocs).2.2.1 (by decide),
   (c8_exit_codes pandocFail ⟨["docs", "report.docx"], none, false, false⟩
     wDocs).2.2.2.2.1 (by decide) (by decide) (by decide) (by decide)⟩

theorem dropLast_append_lastName (l : FsPath) (h : l ≠ []) :
    l.dropLast ++ [lastName l] = l := by
  rcases List.eq_nil_or_concat l with rfl | ⟨init, a, rfl⟩
  · exact absurd rfl h
  · simp [lastName, List.getLastD_concat, List.dropLast_concat]

/-- A directory `/d` holding the two files `.docx` and `.docx.docx`, both
matched by the batch driver's pattern and both with stem `.docx`. -/
def fsDot : FileSystem :=
  ⟨[["d", ".docx"], ["d", ".docx.docx"]], [["d"]]⟩

/-- C9 counterexample: two distinct files enumerated by the batch driver
(`.docx` and `.docx.docx`) share the base name `.docx`, hence the same
bundle directory, contradicting the claim as stated. -/
theorem c9_counterexample :
    (["d", ".docx"] : FsPath) ∈ batchCandidates fsDot ["d"] ["d"]
    ∧ (["d", ".docx.docx"] : FsPath) ∈ batchCandidates fsDot ["d"] ["d"]
    ∧ (["d", ".docx"] : FsPath) ≠ (["d", ".docx.docx"] : FsPath)
    ∧ pyStem (lastName ["d", ".docx"]) = pyStem (lastName ["d", ".docx.docx"])
    ∧ docDirOf ["d", ".docx"] (some ["d"])
        = docDirOf ["d", ".docx.docx"] (some ["d"]) := by
  decide

/-- C9 (amended): any two distinct files enumerated by the batch driver,
neither named exactly `.docx`, have distinct base names and therefore
pairwise distinct bundle directories, all sharing the same output parent;
the sole exception, a file named exactly `.docx`, fails extension
validation before its bundle directory would be created. -/
theorem c9_distinct_bundles (fs : FileSystem) (input op f g : FsPath)
    (hf : f ∈ batchCandidates fs input op)
    (hg : g ∈ batchCandidates fs input op)
    (hfg : f ≠ g) (hfname : lastName f ≠ ".docx")
    (hgname : lastName g ≠ ".docx") :
    pyStem (lastName f) ≠ pyStem (lastName g)
    ∧ docDirOf f (some op) ≠ docDirOf g (some op)
    ∧ (docDirOf f (some op)).dropLast = op
    ∧ (docDirOf g (some op)).dropLast = op := by
  simp only [batchCandidates] at hf hg
  have hmf := (mem_globDocx _ _ _).mp hf
  have hmg := (mem_globDocx _ _ _).mp hg
  have hnames : lastName f ≠ lastName g := by
    intro heq
    apply hfg
    calc f = f.dropLast ++ [lastName f] :=
            (dropLast_append_lastName f hmf.2.1).symm
      _ = g.dropLast ++ [lastName g] := by rw [hmf.2.2.1, hmg.2.2.1, heq]
      _ = g := dropLast_append_lastName g hmg.2.1
  have hstem : pyStem (lastName f) ≠ pyStem (lastName g) := by
    intro heq
    exact hnames (docx_name_stem_inj (lastName f) (lastName g)
      hmf.2.2.2 hfname hmg.2.2.2 hgname heq)
  refine ⟨hstem, ?_, ?_, ?_⟩
  · intro heq
    apply hstem
    simpa [docDirOf] using heq
  · simp [docDirOf, List.dropLast_concat]
  · simp [docDirOf, List.dropLast_concat]

theorem c9_witness :
    pyStem (lastName ["docs", "a.docx"]) ≠ pyStem (lastName ["docs", "b.docx"])
    ∧ docDirOf ["docs", "a.docx"] (some ["docs"])
        ≠ docDirOf ["docs", "b.docx"] (some ["docs"])
    ∧ (docDirOf ["docs", "a.docx"] (some ["docs"])).dropLast = ["docs"]
    ∧ (docDirOf ["docs", "b.docx"] (some ["docs"])).dropLast = ["docs"] :=
  c9_distinct_bundles wAB.fs ["docs"] ["docs"] ["docs", "a.docx"]
    ["docs", "b.docx"] (by decide) (by decide) (by decide) (by decide)
    (by decide)

/-- A directory `/docs` whose only child is the file `X.DOCX`. -/
def fsX : FileSystem := ⟨[["docs", "X.DOCX"]], [["docs"]]⟩

/-- C10: extension acceptance is asymmetric: `X.DOCX` passes the
case-insensitive single-file validation and converts, while the batch
driver's case-sensitive `*.docx` pattern enumerates no candidate in a
directory containing only `X.DOCX`, so the batch returns an empty list. -/
theorem c10_case_asymmetry :
    pySuffix "X.DOCX" = ".DOCX"
    ∧ pyLower (pySuffix "X.DOCX") = ".docx"
    ∧ endsWithDocx "X.DOCX" = false
    ∧ batchCandidates fsX ["docs"] ["docs"] = []
    ∧ (batch_convert pandocOk ["docs"] none true true ⟨fsX, [], [], []⟩).fst
        = .ok []
    ∧ (convert_docx_to_latex pandocOk ["docs", "X.DOCX"] none true true
        ⟨fsX, [], [], []⟩).fst = .ok ["docs", "X", "X.tex"] := by
  decide
